import Mathlib

/-!
Verification of the Bingo lobby engine (`src/backend/lobby.py`).

The Redis-backed lobby state is embedded shallowly as a Lean structure:
the lobby hash fields, the per-player hashes (an association list keyed by
`alien_id`), the `numbers_called` list, the `lobby:{id}:starting` lock key
(`startingLock`), the global lobby pointer key, and a counter of spawned
`call_numbers_task` background tasks.  Timestamps are abstract naturals
passed in as a `now` parameter; string-encoded optional fields ("" versus a
value) are `Option`.  Randomness (the shuffled draw pool, auto-generated
grids) is passed in as an explicit argument.  TTLs are not modelled.
-/

namespace Bingo

/-- Configuration constants from `lobby.py` lines 12–19. -/
def MAX_PLAYERS : Nat := 10

def MIN_PLAYERS : Nat := 2

def FORMING_TIMEOUT : Nat := 120

def NUMBER_CALL_INTERVAL : Nat := 3

def LOBBY_TTL : Nat := 600

def MAX_NUMBER : Nat := 20

def BUY_IN_AMOUNT : Nat := 3500

/-- Lobby `status` field: one of "forming", "active", "finished". -/
inductive Status where
  | forming
  | activeS
  | finished
deriving DecidableEq

/-- A player hash `lobby:{id}:player:{alien_id}` (lines 91–98). -/
structure Player where
  numbers : List Nat
  grid : List (List Nat)
  ready : Bool
  active : Bool
deriving DecidableEq

/-- The player record created on join (lines 91–98): empty numbers and grid,
not ready, active. -/
def newPlayer : Player :=
  { numbers := [], grid := [], ready := false, active := true }

/-- The full per-lobby Redis state: the lobby hash, the player hashes (in key
order, as an association list), the called-numbers list, the starting-lock
key, the global lobby pointer, and a count of spawned number-calling tasks. -/
structure GState where
  status : Status
  buyInAmount : Nat
  pot : Nat
  winner : Option String
  formingDeadline : Option Nat
  startedAt : Option Nat
  finishedAt : Option Nat
  latestNumber : Option Nat
  previousNumber : Option Nat
  numbersCalled : List Nat
  players : List (String × Player)
  startingLock : Bool
  globalPointer : Option String
  spawnedCallers : Nat
  spawnedTimers : Nat
deriving DecidableEq

/-- Result of an operation: `ok` mirrors a returned dict, `err` a raised
`ValueError` (whose message the HTTP layer surfaces). -/
inductive Res (α : Type) where
  | ok (a : α)
  | err (msg : String)
deriving DecidableEq

/-- Key lookup among the player hashes (`redis.hgetall` of one player key /
`redis.exists`). -/
def lookupAssoc {β : Type} : List (String × β) → String → Option β
  | [], _ => none
  | (k, v) :: rest, a => if k = a then some v else lookupAssoc rest a

/-- Overwrite fields of the player hash stored under `target`
(`redis.hset` on that key). -/
def updatePlayer : List (String × Player) → String → (Player → Player) → List (String × Player)
  | [], _, _ => []
  | (k, p) :: rest, target, f =>
    (k, if k = target then f p else p) :: updatePlayer rest target f

/-- Embeds `flat = [n for row in grid for n in row]` (line 141). -/
def gridFlat (grid : List (List Nat)) : List Nat :=
  grid.foldr (fun row acc => row ++ acc) []

/-- Cell access `grid[i][j]`; total with default 0 (never used on the validated 3×3
grids the code indexes). -/
def gridCell (grid : List (List Nat)) (i j : Nat) : Nat :=
  (grid.getD i []).getD j 0

/-- Embeds `all(grid[i][j] in numbers_called for j in range(3))` (line 285). -/
def rowComplete (grid : List (List Nat)) (called : List Nat) (i : Nat) : Bool :=
  (List.range 3).all fun j => decide (gridCell grid i j ∈ called)

/-- Embeds `all(grid[i][j] in numbers_called for i in range(3))` (line 289). -/
def colComplete (grid : List (List Nat)) (called : List Nat) (j : Nat) : Bool :=
  (List.range 3).all fun i => decide (gridCell grid i j ∈ called)

/-- Main-diagonal check (line 292). -/
def diagMainComplete (grid : List (List Nat)) (called : List Nat) : Bool :=
  (List.range 3).all fun i => decide (gridCell grid i i ∈ called)

/-- Anti-diagonal check (line 295). -/
def diagAntiComplete (grid : List (List Nat)) (called : List Nat) : Bool :=
  (List.range 3).all fun i => decide (gridCell grid i (2 - i) ∈ called)

/-- Embeds `check_win_patterns` (lines 282–298): rows first, then columns, then the
two diagonals, returning the first matching pattern name. -/
def check_win_patterns (grid : List (List Nat)) (called : List Nat) : Option String :=
  match (List.range 3).find? (fun i => rowComplete grid called i) with
  | some i => some ("row_" ++ toString i)
  | none =>
    match (List.range 3).find? (fun j => colComplete grid called j) with
    | some j => some ("col_" ++ toString j)
    | none =>
      if diagMainComplete grid called then some "diagonal_main"
      else if diagAntiComplete grid called then some "diagonal_anti"
      else none

/-- The canonical pattern-name order stated by the spec. -/
def patternNames : List String :=
  ["row_0", "row_1", "row_2", "col_0", "col_1", "col_2",
   "diagonal_main", "diagonal_anti"]

/-- Whether a named canonical line is fully contained in `called`. -/
def patternComplete (grid : List (List Nat)) (called : List Nat) : String → Bool
  | "row_0" => rowComplete grid called 0
  | "row_1" => rowComplete grid called 1
  | "row_2" => rowComplete grid called 2
  | "col_0" => colComplete grid called 0
  | "col_1" => colComplete grid called 1
  | "col_2" => colComplete grid called 2
  | "diagonal_main" => diagMainComplete grid called
  | "diagonal_anti" => diagAntiComplete grid called
  | _ => false

/-- Spec-side formulation: the first matching pattern name in the canonical
order `row_0, row_1, row_2, col_0, col_1, col_2, diagonal_main,
diagonal_anti`. -/
def firstPattern (grid : List (List Nat)) (called : List Nat) : Option String :=
  patternNames.find? (patternComplete grid called)

theorem check_win_patterns_eq_firstPattern (grid : List (List Nat)) (called : List Nat) :
    check_win_patterns grid called = firstPattern grid called := by
  have h3 : List.range 3 = [0, 1, 2] := rfl
  unfold check_win_patterns firstPattern patternNames
  rw [h3]
  cases h0 : rowComplete grid called 0 <;>
    cases h1 : rowComplete grid called 1 <;>
      cases h2 : rowComplete grid called 2 <;>
        cases c0 : colComplete grid called 0 <;>
          cases c1 : colComplete grid called 1 <;>
            cases c2 : colComplete grid called 2 <;>
              cases d0 : diagMainComplete grid called <;>
                cases d1 : diagAntiComplete grid called <;>
                  (simp [List.find?, h0, h1, h2, c0, c1, c2, d0, d1, patternComplete]; try rfl)

/-- Embeds `finish_game` (lines 363–371): set status finished, overwrite `winner`
(`""` encodes no winner, here `none`), stamp `finished_at`, and delete the
global lobby pointer. -/
def finish_game (s : GState) (winner : Option String) (now : Nat) : GState :=
  { s with status := Status.finished, winner := winner,
           finishedAt := some now, globalPointer := none }

/-- Embeds `start_game` (lines 234–251): try to acquire `lobby:{id}:starting` with
SET NX; if acquired and the re-read status is still forming, set status
active, stamp `started_at`, and spawn a `call_numbers_task`. -/
def start_game (s : GState) (now : Nat) : GState :=
  if s.startingLock then s
  else if s.status ≠ Status.forming then { s with startingLock := true }
  else
    { s with startingLock := true, status := Status.activeS, startedAt := some now,
             spawnedCallers := s.spawnedCallers + 1 }

/-- Aggregate returned by `add_player_to_lobby`. -/
structure JoinView where
  playerCount : Nat
  pot : Nat
deriving DecidableEq

/-- The state after the player hash is created and the buy-in credited
(lines 91–106). -/
def joinedState (s : GState) (aid : String) : GState :=
  { s with players := s.players ++ [(aid, newPlayer)], pot := s.pot + BUY_IN_AMOUNT }

/-- The state `add_player_to_lobby` leaves on a fresh join: on the very
first join the forming deadline is stamped and the forming timer spawned
(lines 108–112). -/
def joinResultState (s : GState) (aid : String) (now : Nat) : GState :=
  if (joinedState s aid).formingDeadline.isNone then
    { joinedState s aid with formingDeadline := some (now + FORMING_TIMEOUT),
                             spawnedTimers := (joinedState s aid).spawnedTimers + 1 }
  else joinedState s aid

/-- Embeds `add_player_to_lobby` (lines 65–119). -/
def add_player_to_lobby (s : GState) (aid : String) (now : Nat) : GState × Res JoinView :=
  if s.status ≠ Status.forming then
    (s, Res.err "Lobby is no longer accepting players")
  else if (lookupAssoc s.players aid).isSome then
    (s, Res.ok { playerCount := s.players.length, pot := s.pot })
  else if MAX_PLAYERS ≤ s.players.length then
    (s, Res.err "Lobby is full")
  else
    (joinResultState s aid now,
     Res.ok { playerCount := s.players.length + 1, pot := s.pot + BUY_IN_AMOUNT })

/-- Embeds `check_all_players_ready` (lines 171–178): false iff some player is
active but not ready. -/
def check_all_players_ready (ps : List (String × Player)) : Bool :=
  ps.all fun kp => !(kp.2.active && !kp.2.ready)

/-- Embeds `_count_ready_players` (lines 181–189). -/
def count_ready_players (ps : List (String × Player)) : Nat :=
  (ps.filter fun kp => kp.2.ready && kp.2.active).length

/-- Result of `submit_grid`: `success=True` plus the ready count. -/
structure SubmitView where
  readyCount : Nat
deriving DecidableEq

/-- The player-hash write of `submit_grid` (lines 149–153): store the
flattened numbers and the grid and set ready. -/
def submitStore (s : GState) (aid : String) (grid : List (List Nat)) : GState :=
  { s with players := updatePlayer s.players aid fun p =>
      { p with numbers := gridFlat grid, grid := grid, ready := true } }

/-- The state after a successful submission (lines 155–160): the readiness
check runs on the freshly re-read player set, and the game starts when at
least `MIN_PLAYERS` player records exist and all active players are ready. -/
def submitResultState (s : GState) (aid : String) (grid : List (List Nat)) (now : Nat) : GState :=
  if MIN_PLAYERS ≤ (submitStore s aid grid).players.length
     ∧ check_all_players_ready (submitStore s aid grid).players then
    start_game (submitStore s aid grid) now
  else submitStore s aid grid

/-- Embeds `submit_grid` (lines 124–168): state checks, grid validation in source
order, store-and-mark-ready, then the readiness-triggered start. -/
def submit_grid (s : GState) (aid : String) (grid : List (List Nat)) (now : Nat) :
    GState × Res SubmitView :=
  if s.status ≠ Status.forming then
    (s, Res.err "Cannot submit grid in current game state")
  else if (lookupAssoc s.players aid).isNone then
    (s, Res.err "Player not in this lobby")
  else if grid.length ≠ 3 ∨ ∃ row ∈ grid, row.length ≠ 3 then
    (s, Res.err "Grid must be 3x3")
  else if (gridFlat grid).dedup.length ≠ 9 then
    (s, Res.err "Grid must contain 9 unique numbers")
  else if ¬ ∀ n ∈ gridFlat grid, 1 ≤ n ∧ n ≤ MAX_NUMBER then
    (s, Res.err ("Numbers must be between 1 and " ++ toString MAX_NUMBER))
  else
    (submitResultState s aid grid now,
     Res.ok { readyCount := count_ready_players (submitResultState s aid grid now).players })

/-- Embeds `check_all_players_kicked` (lines 353–360). -/
def check_all_players_kicked (ps : List (String × Player)) : Bool :=
  ps.all fun kp => !kp.2.active

/-- Result of a processed claim: a win (with the pot read before finishing
and the matched pattern) or a kick. -/
inductive ClaimView where
  | won (pot : Nat) (pattern : String)
  | kicked
deriving DecidableEq

/-- The claimant's player hash with `active` set to false (line 340). -/
def kickState (s : GState) (aid : String) : GState :=
  { s with players := updatePlayer s.players aid fun q => { q with active := false } }

/-- The state an invalid claim leaves (lines 339–344): kick the claimant
and, if every player is now inactive, finish the game with no winner. -/
def kickResultState (s : GState) (aid : String) (now : Nat) : GState :=
  if check_all_players_kicked (kickState s aid).players then
    finish_game (kickState s aid) none now
  else kickState s aid

/-- Embeds `verify_claim` (lines 301–350): state and player checks, then validity
iff the highlighted numbers complete a canonical line on the player's own
stored grid and are all contained in the call history read at claim time.
On success finish with this winner; on failure kick the claimant and, if
nobody is left active, finish with no winner. -/
def verify_claim (s : GState) (aid : String) (highlighted : List Nat) (now : Nat) :
    GState × Res ClaimView :=
  if s.status ≠ Status.activeS then (s, Res.err "Game is not active")
  else
    match lookupAssoc s.players aid with
    | none => (s, Res.err "Player not in this lobby")
    | some p =>
      if p.active ≠ true then (s, Res.err "Player is no longer active in this game")
      else
        if h : (check_win_patterns p.grid highlighted).isSome = true
               ∧ ∀ n ∈ highlighted, n ∈ s.numbersCalled then
          (finish_game s (some aid) now,
           Res.ok (ClaimView.won s.pot ((check_win_patterns p.grid highlighted).get h.1)))
        else
          (kickResultState s aid now, Res.ok ClaimView.kicked)

/-- One iteration body of the `call_numbers_task` loop (lines 266–273):
append the drawn number to the call history, shift the latest number into
`previous_number` when one was set, and record the new latest number. -/
def call_number_step (s : GState) (n : Nat) : GState :=
  { s with numbersCalled := s.numbersCalled ++ [n],
           latestNumber := some n,
           previousNumber := if s.latestNumber.isSome then s.latestNumber else s.previousNumber }

/-- Embeds `call_numbers_task` (lines 256–277) over an explicit shuffled pool: on
each tick re-check the status is still active (abort silently otherwise),
draw the next number, and after the pool is exhausted finish the game with
no winner. -/
def call_numbers_task : GState → List Nat → Nat → GState
  | s, [], now => finish_game s none now
  | s, n :: rest, now =>
    if s.status ≠ Status.activeS then s
    else call_numbers_task (call_number_step s n) rest now

/-- The auto-fill pass of `forming_timer` (lines 209–219): every active,
not-ready player gets the random grid `oracle` assigns to them and is
marked ready. -/
def autoFillPlayers : List (String × Player) → (String → List (List Nat)) → List (String × Player)
  | [], _ => []
  | (k, p) :: rest, oracle =>
    (k, if p.active && !p.ready then
          { p with numbers := gridFlat (oracle k), grid := oracle k, ready := true }
        else p) :: autoFillPlayers rest oracle

/-- The state after the timer's auto-fill pass. -/
def autoFilledState (s : GState) (oracle : String → List (List Nat)) : GState :=
  { s with players := autoFillPlayers s.players oracle }

/-- Embeds the `forming_timer` firing (lines 200–231): no-op unless still forming;
auto-fill unready players, then start with at least `MIN_PLAYERS` active
players, else finish with no winner. -/
def forming_timer_fire (s : GState) (oracle : String → List (List Nat)) (now : Nat) : GState :=
  if s.status ≠ Status.forming then s
  else if
    MIN_PLAYERS ≤ ((autoFilledState s oracle).players.filter fun kp => kp.2.active).length then
    start_game (autoFilledState s oracle) now
  else finish_game (autoFilledState s oracle) none now

/-- State of the global-pointer race (`get_or_create_global_lobby`,
lines 24–60): the pointer key and the set of existing lobby hashes with
their status. -/
structure PointerStore where
  pointer : Option String
  lobbies : List (String × Status)
deriving DecidableEq

/-- Embeds `_create_new_global_lobby` (lines 42–60): create a fresh forming lobby
hash, then write the pointer with a PLAIN `SET` (line 58 passes no `nx`
flag), overwriting whatever the pointer held. -/
def createNewGlobalLobby (st : PointerStore) (freshId : String) : PointerStore × String :=
  ({ pointer := some freshId, lobbies := st.lobbies ++ [(freshId, Status.forming)] }, freshId)

/-- Embeds `get_or_create_global_lobby` (lines 24–39): follow the pointer; reuse an
active or forming lobby, otherwise create a new one. -/
def get_or_create_global_lobby (st : PointerStore) (freshId : String) :
    PointerStore × String × Bool :=
  match st.pointer with
  | some lid =>
    match lookupAssoc st.lobbies lid with
    | some Status.activeS => (st, lid, true)
    | some Status.forming => (st, lid, false)
    | _ => ((createNewGlobalLobby st freshId).1, (createNewGlobalLobby st freshId).2, false)
  | none => ((createNewGlobalLobby st freshId).1, (createNewGlobalLobby st freshId).2, false)

/-- Modelled from the spec: the conditional-create ("set if not exists")
pointer write the spec says `_create_new_global_lobby` uses; written to be
compared with the plain overwrite the source performs. -/
def setPointerIfAbsent (st : PointerStore) (id : String) : PointerStore :=
  match st.pointer with
  | some _ => st
  | none => { st with pointer := some id }

section Lemmas

theorem lookupAssoc_append_left {β : Type} (ps qs : List (String × β)) (a : String) (v : β)
    (h : lookupAssoc ps a = some v) : lookupAssoc (ps ++ qs) a = some v := by
  induction ps with
  | nil => simp [lookupAssoc] at h
  | cons kp rest ih =>
    obtain ⟨k, p⟩ := kp
    simp only [lookupAssoc, List.cons_append] at h ⊢
    by_cases hk : k = a
    · simpa [hk] using h
    · rw [if_neg hk] at h ⊢
      exact ih h

theorem lookupAssoc_append_of_none {β : Type} (ps qs : List (String × β)) (a : String)
    (h : lookupAssoc ps a = none) : lookupAssoc (ps ++ qs) a = lookupAssoc qs a := by
  induction ps with
  | nil => simp
  | cons kp rest ih =>
    obtain ⟨k, p⟩ := kp
    simp only [lookupAssoc, List.cons_append] at h ⊢
    by_cases hk : k = a
    · simp [hk] at h
    · rw [if_neg hk] at h ⊢
      exact ih h

theorem lookup_updatePlayer_self (ps : List (String × Player)) (t : String) (f : Player → Player) :
    lookupAssoc (updatePlayer ps t f) t = (lookupAssoc ps t).map f := by
  induction ps with
  | nil => rfl
  | cons kp rest ih =>
    obtain ⟨k, p⟩ := kp
    simp only [updatePlayer, lookupAssoc]
    by_cases hk : k = t
    · simp [hk]
    · rw [if_neg hk, if_neg hk]
      exact ih

theorem lookup_updatePlayer_other (ps : List (String × Player)) (t : String) (f : Player → Player)
    (a : String) (h : a ≠ t) : lookupAssoc (updatePlayer ps t f) a = lookupAssoc ps a := by
  induction ps with
  | nil => rfl
  | cons kp rest ih =>
    obtain ⟨k, p⟩ := kp
    simp only [updatePlayer, lookupAssoc]
    by_cases hk : k = a
    · have hkt : k ≠ t := by
        rw [hk]
        exact h
      rw [if_pos hk, if_pos hk, if_neg hkt]
    · rw [if_neg hk, if_neg hk]
      exact ih

theorem lookup_updatePlayer_grid (ps : List (String × Player)) (t : String) (f : Player → Player)
    (a : String) (hgrid : ∀ q, (f q).grid = q.grid) :
    (lookupAssoc (updatePlayer ps t f) a).map Player.grid
      = (lookupAssoc ps a).map Player.grid := by
  induction ps with
  | nil => rfl
  | cons kp rest ih =>
    obtain ⟨k, p⟩ := kp
    simp only [updatePlayer, lookupAssoc]
    by_cases hk : k = a
    · rw [if_pos hk, if_pos hk]
      by_cases ht : k = t
      · simp [ht, hgrid]
      · simp [ht]
    · rw [if_neg hk, if_neg hk]
      exact ih

theorem length_updatePlayer (ps : List (String × Player)) (t : String) (f : Player → Player) :
    (updatePlayer ps t f).length = ps.length := by
  induction ps with
  | nil => rfl
  | cons kp rest ih =>
    obtain ⟨k, p⟩ := kp
    simp [updatePlayer, ih]

theorem lookup_autoFillPlayers_ready (ps : List (String × Player))
    (oracle : String → List (List Nat)) (a : String) (p : Player)
    (hp : lookupAssoc ps a = some p) (hr : p.ready = true) :
    lookupAssoc (autoFillPlayers ps oracle) a = some p := by
  induction ps with
  | nil => simp [lookupAssoc] at hp
  | cons kp rest ih =>
    obtain ⟨k, q⟩ := kp
    simp only [lookupAssoc, autoFillPlayers] at hp ⊢
    by_cases hk : k = a
    · rw [if_pos hk] at hp ⊢
      obtain rfl : q = p := Option.some.inj hp
      simp [hr]
    · rw [if_neg hk] at hp ⊢
      exact ih hp

theorem all_ready_iff (ps : List (String × Player)) :
    check_all_players_ready ps = true
      ↔ ∀ kp ∈ ps, kp.2.active = true → kp.2.ready = true := by
  simp only [check_all_players_ready, List.all_eq_true]
  constructor
  · intro h kp hm ha
    have hb := h kp hm
    cases hready : kp.2.ready
    · rw [ha, hready] at hb
      simp at hb
    · rfl
  · intro h kp hm
    cases ha : kp.2.active
    · simp [ha]
    · simp [ha, h kp hm ha]

theorem kicked_false_of_other_active (ps : List (String × Player)) (t : String)
    (f : Player → Player) (other : String) (q : Player)
    (hne : other ≠ t) (hq : q.active = true) :
    (other, q) ∈ ps → check_all_players_kicked (updatePlayer ps t f) = false := by
  induction ps with
  | nil =>
    intro hmem
    simp at hmem
  | cons kp rest ih =>
    intro hmem
    obtain ⟨k, p⟩ := kp
    rcases List.mem_cons.mp hmem with hhead | htail
    · have h1 : other = k := congrArg Prod.fst hhead
      have h2 : q = p := congrArg Prod.snd hhead
      subst h1
      subst h2
      simp only [updatePlayer, check_all_players_kicked, List.all_cons]
      rw [if_neg hne, hq]
      simp
    · have hrest := ih htail
      simp only [check_all_players_kicked] at hrest
      simp only [updatePlayer, check_all_players_kicked, List.all_cons]
      rw [hrest]
      simp

theorem kicked_true_of_all_others_inactive (ps : List (String × Player)) (t : String) :
    (∀ kq ∈ ps, kq.1 ≠ t → kq.2.active = false) →
    check_all_players_kicked
      (updatePlayer ps t (fun q => { q with active := false })) = true := by
  induction ps with
  | nil =>
    intro _
    rfl
  | cons kp rest ih =>
    intro hothers
    obtain ⟨k, p⟩ := kp
    simp only [updatePlayer, check_all_players_kicked, List.all_cons, Bool.and_eq_true]
    constructor
    · by_cases hk : k = t
      · simp [hk]
      · have hpa : p.active = false := hothers (k, p) (List.mem_cons_self _ _) hk
        simp [hk, hpa]
    · have hrest := ih fun kq hm => hothers kq (List.mem_cons_of_mem _ hm)
      simpa [check_all_players_kicked] using hrest

theorem players_start_game (s : GState) (now : Nat) :
    (start_game s now).players = s.players := by
  unfold start_game
  split
  · rfl
  · split <;> rfl

theorem players_call_number_step (s : GState) (n : Nat) :
    (call_number_step s n).players = s.players := rfl

theorem status_call_number_step (s : GState) (n : Nat) :
    (call_number_step s n).status = s.status := rfl

theorem players_call_numbers_task (s : GState) (pool : List Nat) (now : Nat) :
    (call_numbers_task s pool now).players = s.players := by
  induction pool generalizing s with
  | nil => rfl
  | cons n rest ih =>
    unfold call_numbers_task
    split
    · rfl
    · rw [ih, players_call_number_step]

theorem task_numbersCalled (s : GState) (pool : List Nat) (now : Nat)
    (h : s.status = Status.activeS) :
    (call_numbers_task s pool now).numbersCalled = s.numbersCalled ++ pool := by
  induction pool generalizing s with
  | nil => simp [call_numbers_task, finish_game]
  | cons n rest ih =>
    unfold call_numbers_task
    rw [if_neg (by simp [h])]
    rw [ih _ (by simp [call_number_step, h])]
    simp [call_number_step]

theorem task_finishes (s : GState) (pool : List Nat) (now : Nat)
    (h : s.status = Status.activeS) :
    (call_numbers_task s pool now).status = Status.finished
      ∧ (call_numbers_task s pool now).winner = none := by
  induction pool generalizing s with
  | nil => simp [call_numbers_task, finish_game]
  | cons n rest ih =>
    unfold call_numbers_task
    rw [if_neg (by simp [h])]
    exact ih _ (by simp [call_number_step, h])

theorem flat_length_of_3x3 (grid : List (List Nat)) (h3 : grid.length = 3)
    (hr : ∀ row ∈ grid, row.length = 3) : (gridFlat grid).length = 9 := by
  rcases grid with _ | ⟨a, _ | ⟨b, _ | ⟨c, _ | ⟨d, tl⟩⟩⟩⟩ <;> simp at h3
  have ha := hr a (by simp)
  have hb := hr b (by simp)
  have hc := hr c (by simp)
  simp [gridFlat, ha, hb, hc]

theorem dedup_nine_iff (l : List Nat) (hlen : l.length = 9) :
    l.dedup.length = 9 ↔ l.Nodup := by
  constructor
  · intro h
    have hsub : l.dedup.Sublist l := List.dedup_sublist l
    have heq : l.dedup = l := hsub.eq_of_length (by rw [h, hlen])
    rw [← heq]
    exact List.nodup_dedup l
  · intro h
    rw [List.dedup_eq_self.mpr h, hlen]

end Lemmas

/-- The grid-validity rules of the spec: exactly 3×3, the 9 contained values
pairwise distinct, each in `[1, MAX_NUMBER]`. -/
def validGridRules (grid : List (List Nat)) : Prop :=
  grid.length = 3 ∧ (∀ row ∈ grid, row.length = 3)
  ∧ (gridFlat grid).Nodup ∧ ∀ n ∈ gridFlat grid, 1 ≤ n ∧ n ≤ MAX_NUMBER

instance (grid : List (List Nat)) : Decidable (validGridRules grid) := by
  unfold validGridRules
  infer_instance

section Samples

/-- A fresh forming lobby as `_create_new_global_lobby` writes it. -/
def baseState : GState :=
  { status := Status.forming, buyInAmount := BUY_IN_AMOUNT, pot := 0, winner := none,
    formingDeadline := none, startedAt := none, finishedAt := none,
    latestNumber := none, previousNumber := none, numbersCalled := [],
    players := [], startingLock := false, globalPointer := some "lobby_1",
    spawnedCallers := 0, spawnedTimers := 0 }

def gridA : List (List Nat) := [[1, 2, 3], [4, 5, 6], [7, 8, 9]]

def gridB : List (List Nat) := [[10, 11, 12], [13, 14, 15], [16, 17, 18]]

def playerReadyA : Player :=
  { numbers := gridFlat gridA, grid := gridA, ready := true, active := true }

def playerReadyB : Player :=
  { numbers := gridFlat gridB, grid := gridB, ready := true, active := true }

/-- An active two-player lobby mid-game. -/
def activeState : GState :=
  { baseState with status := Status.activeS, pot := 7000,
                   players := [("A", playerReadyA), ("B", playerReadyB)],
                   numbersCalled := [1, 2, 3, 5],
                   latestNumber := some 5, previousNumber := some 3,
                   startingLock := true, startedAt := some 100, spawnedCallers := 1 }

end Samples

/-- Claim C2: the forming-to-active transition happens at most once per
lobby.  `start_game` is a no-op on the lobby state whenever the exclusive
token cannot be acquired or the re-read status is not forming (in the
latter case only the token key itself is set), spawning no number-calling
task; when the transition does run, a second invocation — from either the
readiness path or the forming-timer path — changes nothing, so `startedAt`
is set at most once and only the first caller to acquire the token
performs the transition. -/
theorem claim_C2_start_once (s : GState) (now now2 : Nat) :
    (s.startingLock = true → start_game s now = s)
    ∧ (s.startingLock = false → s.status ≠ Status.forming →
        start_game s now = { s with startingLock := true })
    ∧ (s.startingLock = false → s.status = Status.forming →
        (start_game s now).status = Status.activeS
        ∧ (start_game s now).startedAt = some now
        ∧ (start_game s now).spawnedCallers = s.spawnedCallers + 1
        ∧ start_game (start_game s now) now2 = start_game s now) := by
  refine ⟨?_, ?_, ?_⟩
  · intro h
    simp [start_game, h]
  · intro h1 h2
    simp [start_game, h1, h2]
  · intro h1 h2
    simp [start_game, h1, h2]

/-- Witness for C2 at concrete states: a held token makes `start_game` the
identity, and after a first successful transition the second call is a
no-op. -/
theorem claim_C2_start_once_witness :
    start_game { baseState with startingLock := true } 5 = { baseState with startingLock := true }
    ∧ (start_game baseState 5).status = Status.activeS
    ∧ (start_game baseState 5).startedAt = some 5
    ∧ start_game (start_game baseState 5) 6 = start_game baseState 5 := by
  refine ⟨(claim_C2_start_once { baseState with startingLock := true } 5 6).1 rfl, ?_, ?_, ?_⟩
  · exact ((claim_C2_start_once baseState 5 6).2.2 rfl rfl).1
  · exact ((claim_C2_start_once baseState 5 6).2.2 rfl rfl).2.1
  · exact ((claim_C2_start_once baseState 5 6).2.2 rfl rfl).2.2.2

/-- Claim C3: in a forming lobby, for an existing player, `submit_grid`
fails with the error naming the violated rule unless the grid is exactly
3×3 with 9 pairwise-distinct values in `[1, 20]`, and every failing
submission leaves the whole state — in particular the player's prior
numbers, grid and ready flag — unchanged; a rule-abiding grid is
accepted. -/
theorem claim_C3_grid_validation (s : GState) (aid : String) (grid : List (List Nat))
    (now : Nat) (hs : s.status = Status.forming)
    (hp : (lookupAssoc s.players aid).isSome = true) :
    (¬ validGridRules grid →
        (submit_grid s aid grid now).1 = s
        ∧ ∃ msg, (submit_grid s aid grid now).2 = Res.err msg)
    ∧ ((grid.length ≠ 3 ∨ ∃ row ∈ grid, row.length ≠ 3) →
        (submit_grid s aid grid now).2 = Res.err "Grid must be 3x3")
    ∧ (grid.length = 3 → (∀ row ∈ grid, row.length = 3) → ¬ (gridFlat grid).Nodup →
        (submit_grid s aid grid now).2 = Res.err "Grid must contain 9 unique numbers")
    ∧ (grid.length = 3 → (∀ row ∈ grid, row.length = 3) → (gridFlat grid).Nodup →
        (¬ ∀ n ∈ gridFlat grid, 1 ≤ n ∧ n ≤ MAX_NUMBER) →
        (submit_grid s aid grid now).2
          = Res.err ("Numbers must be between 1 and " ++ toString MAX_NUMBER))
    ∧ (validGridRules grid → ∃ r, (submit_grid s aid grid now).2 = Res.ok r) := by
  have h1 : ¬ s.status ≠ Status.forming := by simp [hs]
  have h2 : ¬ (lookupAssoc s.players aid).isNone = true := by
    obtain ⟨p, hpp⟩ := Option.isSome_iff_exists.mp hp
    simp [hpp]
  refine ⟨?_, ?_, ?_, ?_, ?_⟩
  · intro hnv
    by_cases c3 : grid.length ≠ 3 ∨ ∃ row ∈ grid, row.length ≠ 3
    · rw [submit_grid, if_neg h1, if_neg h2, if_pos c3]
      exact ⟨rfl, _, rfl⟩
    · push_neg at c3
      by_cases c4 : (gridFlat grid).dedup.length ≠ 9
      · rw [submit_grid, if_neg h1, if_neg h2, if_neg (by push_neg; exact c3), if_pos c4]
        exact ⟨rfl, _, rfl⟩
      · push_neg at c4
        by_cases c5 : ¬ ∀ n ∈ gridFlat grid, 1 ≤ n ∧ n ≤ MAX_NUMBER
        · rw [submit_grid, if_neg h1, if_neg h2, if_neg (by push_neg; exact c3),
              if_neg (by omega), if_pos c5]
          exact ⟨rfl, _, rfl⟩
        · push_neg at c5
          exfalso
          have hnodup : (gridFlat grid).Nodup :=
            (dedup_nine_iff _ (flat_length_of_3x3 grid c3.1 c3.2)).mp c4
          exact hnv ⟨c3.1, c3.2, hnodup, fun n hn => ⟨(c5 n hn).1, (c5 n hn).2⟩⟩
  · intro c3
    rw [submit_grid, if_neg h1, if_neg h2, if_pos c3]
  · intro h3 hr hnod
    have hlen := flat_length_of_3x3 grid h3 hr
    have c4 : (gridFlat grid).dedup.length ≠ 9 := fun hc =>
      hnod ((dedup_nine_iff _ hlen).mp hc)
    rw [submit_grid, if_neg h1, if_neg h2, if_neg (by push_neg; exact ⟨h3, hr⟩), if_pos c4]
  · intro h3 hr hnod c5
    have hlen := flat_length_of_3x3 grid h3 hr
    have c4 : ¬ (gridFlat grid).dedup.length ≠ 9 := by
      have := (dedup_nine_iff _ hlen).mpr hnod
      omega
    rw [submit_grid, if_neg h1, if_neg h2, if_neg (by push_neg; exact ⟨h3, hr⟩),
        if_neg c4, if_pos c5]
  · intro hv
    obtain ⟨h3, hr, hnod, hrange⟩ := hv
    have hlen := flat_length_of_3x3 grid h3 hr
    have c4 : ¬ (gridFlat grid).dedup.length ≠ 9 := by
      have := (dedup_nine_iff _ hlen).mpr hnod
      omega
    rw [submit_grid, if_neg h1, if_neg h2, if_neg (by push_neg; exact ⟨h3, hr⟩),
        if_neg c4, if_neg (by push_neg; exact hrange)]
    exact ⟨_, rfl⟩

/-- Witness for C3 at a concrete forming lobby: a 2×2 grid is rejected with
the 3×3 rule and leaves the state untouched; a duplicate-value grid and an
out-of-range grid are rejected with their rules; a valid grid is
accepted. -/
theorem claim_C3_grid_validation_witness :
    (submit_grid { baseState with players := [("A", newPlayer)] } "A" [[1, 2], [3, 4]] 0).1
      = { baseState with players := [("A", newPlayer)] }
    ∧ (submit_grid { baseState with players := [("A", newPlayer)] } "A" [[1, 2], [3, 4]] 0).2
      = Res.err "Grid must be 3x3"
    ∧ (submit_grid { baseState with players := [("A", newPlayer)] } "A"
        [[1, 1, 2], [3, 4, 5], [6, 7, 8]] 0).2 = Res.err "Grid must contain 9 unique numbers"
    ∧ (submit_grid { baseState with players := [("A", newPlayer)] } "A"
        [[1, 2, 3], [4, 5, 6], [7, 8, 21]] 0).2
      = Res.err ("Numbers must be between 1 and " ++ toString MAX_NUMBER)
    ∧ ∃ r, (submit_grid { baseState with players := [("A", newPlayer)] } "A" gridA 0).2
      = Res.ok r := by
  refine ⟨?_, ?_, ?_, ?_, ?_⟩
  · exact ((claim_C3_grid_validation { baseState with players := [("A", newPlayer)] } "A"
      [[1, 2], [3, 4]] 0 rfl (by decide)).1 (by decide)).1
  · exact (claim_C3_grid_validation { baseState with players := [("A", newPlayer)] } "A"
      [[1, 2], [3, 4]] 0 rfl (by decide)).2.1 (by decide)
  · exact (claim_C3_grid_validation { baseState with players := [("A", newPlayer)] } "A"
      [[1, 1, 2], [3, 4, 5], [6, 7, 8]] 0 rfl (by decide)).2.2.1 (by decide) (by decide)
      (by decide)
  · exact (claim_C3_grid_validation { baseState with players := [("A", newPlayer)] } "A"
      [[1, 2, 3], [4, 5, 6], [7, 8, 21]] 0 rfl (by decide)).2.2.2.1 (by decide) (by decide)
      (by decide) (by decide)
  · exact (claim_C3_grid_validation { baseState with players := [("A", newPlayer)] } "A"
      gridA 0 rfl (by decide)).2.2.2.2 (by decide)

/-- Claim C4: joining a forming lobby is idempotent per player id.  A
repeat join returns the current player count and pot with no state change
at all — no second pot credit, no duplicate record — while a first join
(under capacity) creates the fresh player record (empty numbers and grid,
not ready, active) and adds the buy-in to the pot. -/
theorem claim_C4_join_idempotent (s : GState) (aid : String) (now : Nat)
    (hs : s.status = Status.forming) :
    ((lookupAssoc s.players aid).isSome = true →
        add_player_to_lobby s aid now
          = (s, Res.ok { playerCount := s.players.length, pot := s.pot }))
    ∧ (lookupAssoc s.players aid = none → s.players.length < MAX_PLAYERS →
        lookupAssoc (add_player_to_lobby s aid now).1.players aid = some newPlayer
        ∧ (add_player_to_lobby s aid now).1.pot = s.pot + BUY_IN_AMOUNT
        ∧ (add_player_to_lobby s aid now).1.players.length = s.players.length + 1
        ∧ (add_player_to_lobby s aid now).2
          = Res.ok { playerCount := s.players.length + 1, pot := s.pot + BUY_IN_AMOUNT }) := by
  have h1 : ¬ s.status ≠ Status.forming := by simp [hs]
  constructor
  · intro hex
    rw [add_player_to_lobby, if_neg h1, if_pos hex]
  · intro hnone hcap
    have h2 : ¬ (lookupAssoc s.players aid).isSome = true := by simp [hnone]
    have h3 : ¬ MAX_PLAYERS ≤ s.players.length := by omega
    rw [add_player_to_lobby, if_neg h1, if_neg h2, if_neg h3]
    have hplayers : (joinResultState s aid now).players = s.players ++ [(aid, newPlayer)] := by
      rw [joinResultState]
      split <;> rfl
    have hpot : (joinResultState s aid now).pot = s.pot + BUY_IN_AMOUNT := by
      rw [joinResultState]
      split <;> rfl
    refine ⟨?_, hpot, ?_, rfl⟩
    · rw [hplayers, lookupAssoc_append_of_none _ _ _ hnone]
      simp [lookupAssoc]
    · rw [hplayers]
      simp

/-- Witness for C4: joining the same concrete forming lobby twice credits
the pot once and keeps a single player record. -/
theorem claim_C4_join_idempotent_witness :
    add_player_to_lobby (add_player_to_lobby baseState "A" 0).1 "A" 1
      = ((add_player_to_lobby baseState "A" 0).1,
         Res.ok { playerCount := 1, pot := BUY_IN_AMOUNT })
    ∧ lookupAssoc (add_player_to_lobby baseState "A" 0).1.players "A" = some newPlayer
    ∧ (add_player_to_lobby baseState "A" 0).1.pot = BUY_IN_AMOUNT := by
  refine ⟨?_, ?_, ?_⟩
  · exact (claim_C4_join_idempotent (add_player_to_lobby baseState "A" 0).1 "A" 1
      (by decide)).1 (by decide)
  · exact ((claim_C4_join_idempotent baseState "A" 0 rfl).2 rfl (by decide)).1
  · exact ((claim_C4_join_idempotent baseState "A" 0 rfl).2 rfl (by decide)).2.1

/-- Claim C1: in an active lobby, for an active player, a claim is valid —
returning the first matching pattern name in the canonical order `row_0,
row_1, row_2, col_0, col_1, col_2, diagonal_main, diagonal_anti` — iff the
highlighted numbers complete a canonical line on that player's own stored
grid AND are all contained in the call history read at claim time; a claim
failing either condition is reported kicked, sets the claimant's active
flag to false, and never makes them the winner. -/
theorem claim_C1_claim_validity (s : GState) (aid : String) (p : Player) (hl : List Nat)
    (now : Nat) (hs : s.status = Status.activeS)
    (hp : lookupAssoc s.players aid = some p) (ha : p.active = true)
    (hw : s.winner ≠ some aid) :
    ((verify_claim s aid hl now).2
        = Res.ok (ClaimView.won s.pot ((firstPattern p.grid hl).getD ""))
      ↔ (firstPattern p.grid hl).isSome = true ∧ ∀ n ∈ hl, n ∈ s.numbersCalled)
    ∧ (((firstPattern p.grid hl).isSome = true ∧ ∀ n ∈ hl, n ∈ s.numbersCalled) →
        (verify_claim s aid hl now).1.winner = some aid
        ∧ (verify_claim s aid hl now).1.status = Status.finished)
    ∧ (¬((firstPattern p.grid hl).isSome = true ∧ ∀ n ∈ hl, n ∈ s.numbersCalled) →
        (verify_claim s aid hl now).2 = Res.ok ClaimView.kicked
        ∧ lookupAssoc (verify_claim s aid hl now).1.players aid
            = some { p with active := false }
        ∧ (verify_claim s aid hl now).1.winner ≠ some aid) := by
  have hFP : firstPattern p.grid hl = check_win_patterns p.grid hl :=
    (check_win_patterns_eq_firstPattern p.grid hl).symm
  have h1 : ¬ s.status ≠ Status.activeS := by simp [hs]
  have hred : verify_claim s aid hl now
      = (if h : (check_win_patterns p.grid hl).isSome = true
               ∧ ∀ n ∈ hl, n ∈ s.numbersCalled then
          (finish_game s (some aid) now,
           Res.ok (ClaimView.won s.pot ((check_win_patterns p.grid hl).get h.1)))
        else
          (kickResultState s aid now, Res.ok ClaimView.kicked)) := by
    rw [verify_claim, if_neg h1, hp]
    simp [ha]
  have hlook : lookupAssoc (kickState s aid).players aid
      = some { p with active := false } := by
    show lookupAssoc (updatePlayer s.players aid _) aid = _
    rw [lookup_updatePlayer_self, hp]
    rfl
  rw [hred]
  by_cases hcond : (check_win_patterns p.grid hl).isSome = true
      ∧ ∀ n ∈ hl, n ∈ s.numbersCalled
  · rw [dif_pos hcond]
    obtain ⟨pat, hpat⟩ := Option.isSome_iff_exists.mp hcond.1
    refine ⟨?_, ?_, ?_⟩
    · rw [hFP]
      constructor
      · intro _
        exact hcond
      · intro _
        simp [hpat]
    · intro _
      exact ⟨rfl, rfl⟩
    · intro hn
      rw [hFP] at hn
      exact absurd hcond hn
  · rw [dif_neg hcond]
    refine ⟨?_, ?_, ?_⟩
    · rw [hFP]
      constructor
      · intro heq
        simp at heq
      · intro hr
        exact absurd hr hcond
    · intro h
      rw [hFP] at h
      exact absurd h hcond
    · intro _
      refine ⟨rfl, ?_, ?_⟩
      · show lookupAssoc (kickResultState s aid now).players aid = _
        rw [kickResultState]
        split
        · exact hlook
        · exact hlook
      · show (kickResultState s aid now).winner ≠ some aid
        rw [kickResultState]
        split
        · simp [finish_game]
        · exact hw

/-- Witness for C1 at a concrete active lobby: highlighting the called
top row of the claimant's grid wins with pattern `row_0`; highlighting
numbers that neither form a line nor were all called gets the claimant
kicked and never crowned. -/
theorem claim_C1_claim_validity_witness :
    (verify_claim activeState "A" [1, 2, 3] 200).2
      = Res.ok (ClaimView.won activeState.pot ((firstPattern playerReadyA.grid [1, 2, 3]).getD ""))
    ∧ (verify_claim activeState "A" [2, 4, 6] 200).2 = Res.ok ClaimView.kicked
    ∧ lookupAssoc (verify_claim activeState "A" [2, 4, 6] 200).1.players "A"
      = some { playerReadyA with active := false }
    ∧ (verify_claim activeState "A" [2, 4, 6] 200).1.winner ≠ some "A" := by
  have h1 := claim_C1_claim_validity activeState "A" playerReadyA [1, 2, 3] 200 rfl
    (by decide) rfl (by decide)
  have h2 := claim_C1_claim_validity activeState "A" playerReadyA [2, 4, 6] 200 rfl
    (by decide) rfl (by decide)
  exact ⟨h1.1.mpr (by decide), (h2.2.2 (by decide)).1, (h2.2.2 (by decide)).2.1,
    (h2.2.2 (by decide)).2.2⟩

/-- Claim C8: the number-calling task re-checks on every tick that the
lobby is still active and aborts silently with no state change otherwise;
each drawn number is appended to the call history while the latest number
shifts to `previousNumber`; and a full run over a shuffled pool of the 20
valid numbers leaves an append-only, duplicate-free history of at most 20
entries and finishes the game with no winner. -/
theorem claim_C8_call_history (s : GState) (pool : List Nat) (now n : Nat)
    (rest : List Nat) :
    (s.status ≠ Status.activeS → call_numbers_task s (n :: rest) now = s)
    ∧ ((call_number_step s n).numbersCalled = s.numbersCalled ++ [n]
       ∧ (call_number_step s n).latestNumber = some n
       ∧ (call_number_step s n).previousNumber
         = (if s.latestNumber.isSome then s.latestNumber else s.previousNumber))
    ∧ (s.status = Status.activeS → s.numbersCalled = []
       → pool.Perm (List.range' 1 MAX_NUMBER) →
        (call_numbers_task s pool now).numbersCalled = pool
        ∧ (call_numbers_task s pool now).numbersCalled.Nodup
        ∧ (call_numbers_task s pool now).numbersCalled.length ≤ MAX_NUMBER
        ∧ (call_numbers_task s pool now).status = Status.finished
        ∧ (call_numbers_task s pool now).winner = none) := by
  refine ⟨?_, ⟨rfl, rfl, rfl⟩, ?_⟩
  · intro h
    rw [call_numbers_task, if_pos h]
  · intro hact hempty hperm
    have hnc : (call_numbers_task s pool now).numbersCalled = pool := by
      rw [task_numbersCalled s pool now hact, hempty]
      simp
    have hrangeNodup : (List.range' 1 MAX_NUMBER).Nodup := by decide
    have hfin := task_finishes s pool now hact
    refine ⟨hnc, ?_, ?_, hfin.1, hfin.2⟩
    · rw [hnc]
      exact hperm.nodup_iff.mpr hrangeNodup
    · rw [hnc, hperm.length_eq, List.length_range']

/-- Witness for C8: a full concrete run over the in-order pool records all
20 numbers and finishes with no winner, and a tick against a finished
lobby is the identity. -/
theorem claim_C8_call_history_witness :
    (call_numbers_task { activeState with numbersCalled := [] }
        (List.range' 1 MAX_NUMBER) 300).numbersCalled = List.range' 1 MAX_NUMBER
    ∧ (call_numbers_task { activeState with numbersCalled := [] }
        (List.range' 1 MAX_NUMBER) 300).status = Status.finished
    ∧ (call_numbers_task { activeState with numbersCalled := [] }
        (List.range' 1 MAX_NUMBER) 300).winner = none
    ∧ call_numbers_task (finish_game activeState none 250) [7, 8] 300
      = finish_game activeState none 250 := by
  have h1 := (claim_C8_call_history { activeState with numbersCalled := [] }
    (List.range' 1 MAX_NUMBER) 300 7 [8]).2.2 rfl rfl (List.Perm.refl _)
  have h2 := (claim_C8_call_history (finish_game activeState none 250) [] 300 7 [8]).1
    (by decide)
  exact ⟨h1.1, h1.2.2.2.1, h1.2.2.2.2, h2⟩

/-- An active lobby in which player B has already been kicked. -/
def activeStateBOut : GState :=
  { activeState with players :=
      [("A", playerReadyA), ("B", { playerReadyB with active := false })] }

/-- Claim C9: when an invalid claim leaves every player in the lobby
inactive, the lobby is finished with no winner — status finished, winner
empty, `finishedAt` stamped, and the global lobby pointer cleared. -/
theorem claim_C9_all_kicked_finishes (s : GState) (aid : String) (p : Player) (hl : List Nat)
    (now : Nat) (hs : s.status = Status.activeS)
    (hp : lookupAssoc s.players aid = some p) (ha : p.active = true)
    (hinv : ¬((check_win_patterns p.grid hl).isSome = true
              ∧ ∀ n ∈ hl, n ∈ s.numbersCalled))
    (hothers : ∀ kq ∈ s.players, kq.1 ≠ aid → kq.2.active = false) :
    (verify_claim s aid hl now).1.status = Status.finished
    ∧ (verify_claim s aid hl now).1.winner = none
    ∧ (verify_claim s aid hl now).1.finishedAt = some now
    ∧ (verify_claim s aid hl now).1.globalPointer = none
    ∧ (verify_claim s aid hl now).2 = Res.ok ClaimView.kicked := by
  have h1 : ¬ s.status ≠ Status.activeS := by simp [hs]
  have hred : verify_claim s aid hl now
      = (kickResultState s aid now, Res.ok ClaimView.kicked) := by
    rw [verify_claim, if_neg h1, hp]
    simp [ha, hinv]
  have hkicked : check_all_players_kicked (kickState s aid).players = true := by
    show check_all_players_kicked (updatePlayer s.players aid _) = true
    exact kicked_true_of_all_others_inactive s.players aid hothers
  rw [hred]
  show (kickResultState s aid now).status = _ ∧ (kickResultState s aid now).winner = _
    ∧ (kickResultState s aid now).finishedAt = _
    ∧ (kickResultState s aid now).globalPointer = _ ∧ _
  rw [kickResultState, if_pos hkicked]
  exact ⟨rfl, rfl, rfl, rfl, rfl⟩

/-- Witness for C9: in a concrete lobby whose only other player is already
kicked, an invalid claim by the last active player finishes the game with
no winner and clears the global pointer. -/
theorem claim_C9_all_kicked_finishes_witness :
    (verify_claim activeStateBOut "A" [2, 4, 6] 200).1.status = Status.finished
    ∧ (verify_claim activeStateBOut "A" [2, 4, 6] 200).1.winner = none
    ∧ (verify_claim activeStateBOut "A" [2, 4, 6] 200).1.finishedAt = some 200
    ∧ (verify_claim activeStateBOut "A" [2, 4, 6] 200).1.globalPointer = none := by
  have h := claim_C9_all_kicked_finishes activeStateBOut "A" playerReadyA [2, 4, 6] 200
    rfl (by decide) rfl (by decide) (by decide)
  exact ⟨h.1, h.2.1, h.2.2.1, h.2.2.2.1⟩

/-- Claim C10: an invalid claim while another player is still active
changes nothing but the claimant's active flag: the result state is
exactly the claimant-kicked state, which agrees with the prior state on
status, pot, winner, call history, latest and previous numbers, and every
other player's record. -/
theorem claim_C10_invalid_claim_frame (s : GState) (aid : String) (p : Player) (hl : List Nat)
    (now : Nat) (other : String) (q : Player)
    (hs : s.status = Status.activeS)
    (hp : lookupAssoc s.players aid = some p) (ha : p.active = true)
    (hinv : ¬((check_win_patterns p.grid hl).isSome = true
              ∧ ∀ n ∈ hl, n ∈ s.numbersCalled))
    (hmem : (other, q) ∈ s.players) (hne : other ≠ aid) (hq : q.active = true) :
    (verify_claim s aid hl now).1 = kickState s aid
    ∧ (verify_claim s aid hl now).2 = Res.ok ClaimView.kicked
    ∧ (∀ k, k ≠ aid → lookupAssoc (kickState s aid).players k = lookupAssoc s.players k)
    ∧ lookupAssoc (kickState s aid).players aid = some { p with active := false }
    ∧ (kickState s aid).status = s.status
    ∧ (kickState s aid).pot = s.pot
    ∧ (kickState s aid).winner = s.winner
    ∧ (kickState s aid).numbersCalled = s.numbersCalled
    ∧ (kickState s aid).latestNumber = s.latestNumber
    ∧ (kickState s aid).previousNumber = s.previousNumber
    ∧ (kickState s aid).globalPointer = s.globalPointer := by
  have h1 : ¬ s.status ≠ Status.activeS := by simp [hs]
  have hred : verify_claim s aid hl now
      = (kickResultState s aid now, Res.ok ClaimView.kicked) := by
    rw [verify_claim, if_neg h1, hp]
    simp [ha, hinv]
  have hkicked : check_all_players_kicked (kickState s aid).players = false := by
    show check_all_players_kicked (updatePlayer s.players aid _) = false
    exact kicked_false_of_other_active s.players aid _ other q hne hq hmem
  have hres : kickResultState s aid now = kickState s aid := by
    rw [kickResultState, if_neg (by simp [hkicked])]
  rw [hred, hres]
  refine ⟨rfl, rfl, ?_, ?_, rfl, rfl, rfl, rfl, rfl, rfl, rfl⟩
  · intro k hk
    show lookupAssoc (updatePlayer s.players aid _) k = _
    exact lookup_updatePlayer_other s.players aid _ k hk
  · show lookupAssoc (updatePlayer s.players aid _) aid = _
    rw [lookup_updatePlayer_self, hp]
    rfl

/-- Witness for C10: an invalid claim by A in a concrete lobby where B is
still active only flips A's active flag; B's record and the lobby fields
survive unchanged. -/
theorem claim_C10_invalid_claim_frame_witness :
    (verify_claim activeState "A" [2, 4, 6] 200).1 = kickState activeState "A"
    ∧ lookupAssoc (kickState activeState "A").players "B" = some playerReadyB
    ∧ (kickState activeState "A").pot = activeState.pot
    ∧ (kickState activeState "A").numbersCalled = activeState.numbersCalled := by
  have h := claim_C10_invalid_claim_frame activeState "A" playerReadyA [2, 4, 6] 200 "B"
    playerReadyB rfl (by decide) rfl (by decide) (by decide) (by decide) rfl
  refine ⟨h.1, ?_, h.2.2.2.2.2.1, h.2.2.2.2.2.2.2.1⟩
  rw [h.2.2.1 "B" (by decide)]
  decide

/-- A pointer store with no current lobby. -/
def emptyStore : PointerStore := { pointer := none, lobbies := [] }

/-- Counterexample to C5: `_create_new_global_lobby` writes the pointer
with a plain overwriting `SET`, not a set-if-not-exists; when two callers
both observe the absent pointer and then create in turn, two lobbies are
created, the callers are returned different lobby ids, and the pointer
names only the last writer — the first caller's lobby never becomes
visible to all. -/
theorem claim_C5_counterexample :
    emptyStore.pointer = none
    ∧ (get_or_create_global_lobby emptyStore "lobby_a").2.1 = "lobby_a"
    ∧ (createNewGlobalLobby emptyStore "lobby_a").2 = "lobby_a"
    ∧ (createNewGlobalLobby (createNewGlobalLobby emptyStore "lobby_a").1 "lobby_b").2
      = "lobby_b"
    ∧ (createNewGlobalLobby (createNewGlobalLobby emptyStore "lobby_a").1
        "lobby_b").1.lobbies.length = 2
    ∧ (createNewGlobalLobby (createNewGlobalLobby emptyStore "lobby_a").1 "lobby_b").1.pointer
      = some "lobby_b"
    ∧ (createNewGlobalLobby emptyStore "lobby_a").2
      ≠ (createNewGlobalLobby (createNewGlobalLobby emptyStore "lobby_a").1 "lobby_b").2
    ∧ (createNewGlobalLobby
        { pointer := some "lobby_x", lobbies := [("lobby_x", Status.forming)] }
        "lobby_y").1.pointer = some "lobby_y"
    ∧ (setPointerIfAbsent
        { pointer := some "lobby_x", lobbies := [("lobby_x", Status.forming)] }
        "lobby_y").pointer = some "lobby_x" := by
  decide

/-- Amended C5: lobby creation writes the global pointer with a plain
overwriting set; when two callers both observed no current lobby and
create in turn, both lobbies are created, each caller is returned its own
lobby id, and the pointer names the last writer. -/
theorem claim_C5_amended_plain_set (st : PointerStore) (fa fb : String) :
    (createNewGlobalLobby st fa).1.pointer = some fa
    ∧ (createNewGlobalLobby st fa).1.lobbies = st.lobbies ++ [(fa, Status.forming)]
    ∧ (createNewGlobalLobby (createNewGlobalLobby st fa).1 fb).1.lobbies
      = st.lobbies ++ [(fa, Status.forming), (fb, Status.forming)]
    ∧ (createNewGlobalLobby (createNewGlobalLobby st fa).1 fb).1.pointer = some fb
    ∧ (st.pointer = none →
        get_or_create_global_lobby st fa = ((createNewGlobalLobby st fa).1, fa, false)) := by
  refine ⟨rfl, rfl, by simp [createNewGlobalLobby], rfl, ?_⟩
  intro h
  simp only [get_or_create_global_lobby, h]
  rfl

/-- Witness for the amended C5 at the empty store. -/
theorem claim_C5_amended_plain_set_witness :
    get_or_create_global_lobby emptyStore "lobby_a"
      = ((createNewGlobalLobby emptyStore "lobby_a").1, "lobby_a", false)
    ∧ (createNewGlobalLobby (createNewGlobalLobby emptyStore "lobby_a").1 "lobby_b").1.pointer
      = some "lobby_b" := by
  have h := claim_C5_amended_plain_set emptyStore "lobby_a" "lobby_b"
  exact ⟨h.2.2.2.2 rfl, h.2.2.2.1⟩

/-- A forming lobby whose sole player is ready with grid `gridA`. -/
def formingReadyA : GState := { baseState with players := [("A", playerReadyA)] }

/-- Counterexample to C6: a player whose ready flag is true can, while the
lobby is still forming, resubmit a different valid grid and overwrite the
stored one — `submit_grid` never checks the ready flag. -/
theorem claim_C6_counterexample :
    (lookupAssoc formingReadyA.players "A").map Player.ready = some true
    ∧ (lookupAssoc formingReadyA.players "A").map Player.grid = some gridA
    ∧ (submit_grid formingReadyA "A" gridB 0).2 = Res.ok { readyCount := 1 }
    ∧ (lookupAssoc (submit_grid formingReadyA "A" gridB 0).1.players "A").map Player.grid
      = some gridB
    ∧ gridB ≠ gridA := by
  decide

/-- Amended C6: once a player is ready, the stored grid can change only
through another successful `submit_grid` by that same player while the
lobby is still forming; every other operation — submitting once the lobby
is no longer forming, another player's submission, claim verification by
anyone, the start transition, number calling, finishing, joining, and the
forming-timer auto-fill — leaves it unchanged. -/
theorem claim_C6_amended_grid_immutable (s : GState) (aid : String) (p : Player)
    (hp : lookupAssoc s.players aid = some p) (hr : p.ready = true) :
    (∀ g now, s.status ≠ Status.forming →
        submit_grid s aid g now = (s, Res.err "Cannot submit grid in current game state"))
    ∧ (∀ other g now, other ≠ aid →
        (lookupAssoc (submit_grid s other g now).1.players aid).map Player.grid
          = some p.grid)
    ∧ (∀ claimant hl now,
        (lookupAssoc (verify_claim s claimant hl now).1.players aid).map Player.grid
          = some p.grid)
    ∧ (∀ now, (lookupAssoc (start_game s now).players aid).map Player.grid = some p.grid)
    ∧ (∀ n, (lookupAssoc (call_number_step s n).players aid).map Player.grid = some p.grid)
    ∧ (∀ pool now,
        (lookupAssoc (call_numbers_task s pool now).players aid).map Player.grid
          = some p.grid)
    ∧ (∀ w now, (lookupAssoc (finish_game s w now).players aid).map Player.grid = some p.grid)
    ∧ (∀ other now,
        (lookupAssoc (add_player_to_lobby s other now).1.players aid).map Player.grid
          = some p.grid)
    ∧ (∀ oracle now,
        (lookupAssoc (forming_timer_fire s oracle now).players aid).map Player.grid
          = some p.grid) := by
  have hkept : ∀ t f, (∀ q, (f q : Player).grid = q.grid) →
      (lookupAssoc (updatePlayer s.players t f) aid).map Player.grid = some p.grid := by
    intro t f hf
    rw [lookup_updatePlayer_grid s.players t f aid hf, hp]
    rfl
  have hsubmitResult : ∀ other g now, other ≠ aid →
      (lookupAssoc (submitResultState s other g now).players aid).map Player.grid
        = some p.grid := by
    intro other g now hne
    have hupd : (lookupAssoc (submitStore s other g).players aid).map Player.grid
        = some p.grid := by
      show (lookupAssoc (updatePlayer s.players other _) aid).map Player.grid = _
      rw [lookup_updatePlayer_other s.players other _ aid (Ne.symm hne), hp]
      rfl
    rw [submitResultState]
    split
    · rw [players_start_game]
      exact hupd
    · exact hupd
  refine ⟨?_, ?_, ?_, ?_, ?_, ?_, ?_, ?_, ?_⟩
  · intro g now h
    rw [submit_grid, if_pos h]
  · intro other g now hne
    rw [submit_grid]
    split
    · simp [hp]
    · split
      · simp [hp]
      · split
        · simp [hp]
        · split
          · simp [hp]
          · split
            · simp [hp]
            · exact hsubmitResult other g now hne
  · intro claimant hl now
    rw [verify_claim]
    split
    · simp [hp]
    · cases hcl : lookupAssoc s.players claimant with
      | none =>
        simp only [hcl]
        simp [hp]
      | some q =>
        simp only [hcl]
        split
        · simp [hp]
        · split
          · simp [finish_game, hp]
          · show (lookupAssoc (kickResultState s claimant now).players aid).map Player.grid = _
            rw [kickResultState]
            split
            · show (lookupAssoc (kickState s claimant).players aid).map Player.grid = _
              exact hkept claimant _ fun _ => rfl
            · exact hkept claimant _ fun _ => rfl
  · intro now
    rw [players_start_game]
    simp [hp]
  · intro n
    rw [players_call_number_step]
    simp [hp]
  · intro pool now
    rw [players_call_numbers_task]
    simp [hp]
  · intro w now
    simp [finish_game, hp]
  · intro other now
    rw [add_player_to_lobby]
    split
    · simp [hp]
    · split
      · simp [hp]
      · split
        · simp [hp]
        · have hps : (joinResultState s other now).players
              = s.players ++ [(other, newPlayer)] := by
            rw [joinResultState]
            split <;> rfl
          show (lookupAssoc (joinResultState s other now).players aid).map Player.grid = _
          rw [hps, lookupAssoc_append_left s.players _ aid p hp]
          rfl
  · intro oracle now
    rw [forming_timer_fire]
    split
    · simp [hp]
    · have hfill : (lookupAssoc (autoFilledState s oracle).players aid).map Player.grid
          = some p.grid := by
        show (lookupAssoc (autoFillPlayers s.players oracle) aid).map Player.grid = _
        rw [lookup_autoFillPlayers_ready s.players oracle aid p hp hr]
        rfl
      split
      · rw [players_start_game]
        exact hfill
      · exact hfill

/-- A forming lobby with ready A and a fresh B. -/
def formingABState : GState :=
  { baseState with players := [("A", newPlayer), ("B", playerReadyB)] }

/-- Witness for the amended C6: submitting once the lobby is active is
rejected; another player's submission (which here starts the game) and an
invalid claim by another player both leave A's stored grid intact. -/
theorem claim_C6_amended_grid_immutable_witness :
    submit_grid activeState "A" gridB 0
      = (activeState, Res.err "Cannot submit grid in current game state")
    ∧ (lookupAssoc (submit_grid formingReadyA "B" gridB 0).1.players "A").map Player.grid
      = some playerReadyA.grid
    ∧ (lookupAssoc (verify_claim activeState "B" [2, 4, 6] 200).1.players "A").map Player.grid
      = some playerReadyA.grid
    ∧ (lookupAssoc (call_numbers_task activeState [6, 7] 300).players "A").map Player.grid
      = some playerReadyA.grid := by
  have h1 := claim_C6_amended_grid_immutable activeState "A" playerReadyA (by decide) rfl
  have h2 := claim_C6_amended_grid_immutable formingReadyA "A" playerReadyA (by decide) rfl
  exact ⟨h1.1 gridB 0 (by decide), h2.2.1 "B" gridB 0 (by decide),
    h1.2.2.1 "B" [2, 4, 6] 200, h1.2.2.2.2.2.1 [6, 7] 300⟩

/-- A forming lobby with a fresh player A and an inactive player B. -/
def formingMixedState : GState :=
  { baseState with players := [("A", newPlayer), ("B", { newPlayer with active := false })] }

/-- Counterexample to C7: the minimum-players guard counts all player
records, not active ones.  In a forming lobby with one fresh player and
one inactive player (active-player count 1), a valid submission still
triggers the forming-to-active transition, though the claim says the
transition requires at least 2 active players. -/
theorem claim_C7_counterexample :
    (formingMixedState.players.filter fun kp => kp.2.active).length = 1
    ∧ (submit_grid formingMixedState "A" gridA 0).1.status = Status.activeS
    ∧ (submit_grid formingMixedState "A" gridA 0).1.startedAt = some 0 := by
  decide

/-- Amended C7: after a successful grid submission the transition is
invoked iff the total player-record count is at least `MIN_PLAYERS` and
every active player is ready — inactive players are ignored by the
readiness check but still count toward the minimum. -/
theorem claim_C7_amended_start_trigger (s : GState) (aid : String) (grid : List (List Nat))
    (now : Nat) (hs : s.status = Status.forming)
    (hp : (lookupAssoc s.players aid).isSome = true)
    (hlock : s.startingLock = false) (hv : validGridRules grid) :
    ((MIN_PLAYERS ≤ s.players.length
        ∧ ∀ kp ∈ (submitStore s aid grid).players, kp.2.active = true → kp.2.ready = true) →
      (submit_grid s aid grid now).1.status = Status.activeS
      ∧ (submit_grid s aid grid now).1.startedAt = some now)
    ∧ ((¬(MIN_PLAYERS ≤ s.players.length
        ∧ ∀ kp ∈ (submitStore s aid grid).players, kp.2.active = true → kp.2.ready = true)) →
      (submit_grid s aid grid now).1 = submitStore s aid grid
      ∧ (submit_grid s aid grid now).1.status = Status.forming
      ∧ (submit_grid s aid grid now).1.startedAt = s.startedAt) := by
  obtain ⟨h3, hrow, hnod, hrange⟩ := hv
  have h1 : ¬ s.status ≠ Status.forming := by simp [hs]
  have h2 : ¬ (lookupAssoc s.players aid).isNone = true := by
    obtain ⟨q, hq⟩ := Option.isSome_iff_exists.mp hp
    simp [hq]
  have hlen := flat_length_of_3x3 grid h3 hrow
  have c4 : ¬ (gridFlat grid).dedup.length ≠ 9 := by
    have := (dedup_nine_iff _ hlen).mpr hnod
    omega
  have hsub : submit_grid s aid grid now
      = (submitResultState s aid grid now,
         Res.ok { readyCount :=
                    count_ready_players (submitResultState s aid grid now).players }) := by
    rw [submit_grid, if_neg h1, if_neg h2, if_neg (by push_neg; exact ⟨h3, hrow⟩),
        if_neg c4, if_neg (by push_neg; exact hrange)]
  have hlenp : (submitStore s aid grid).players.length = s.players.length := by
    show (updatePlayer s.players aid _).length = _
    exact length_updatePlayer s.players aid _
  have hstat : (submitStore s aid grid).status = Status.forming := hs
  have hlock2 : (submitStore s aid grid).startingLock = false := hlock
  constructor
  · intro hcond
    have htrig : MIN_PLAYERS ≤ (submitStore s aid grid).players.length
        ∧ check_all_players_ready (submitStore s aid grid).players = true :=
      ⟨by rw [hlenp]; exact hcond.1, (all_ready_iff _).mpr hcond.2⟩
    rw [hsub]
    show (submitResultState s aid grid now).status = _
      ∧ (submitResultState s aid grid now).startedAt = _
    rw [submitResultState, if_pos htrig, start_game, if_neg (by simp [hlock2]),
        if_neg (by simp [hstat])]
    exact ⟨rfl, rfl⟩
  · intro hcond
    have htrig : ¬(MIN_PLAYERS ≤ (submitStore s aid grid).players.length
        ∧ check_all_players_ready (submitStore s aid grid).players = true) := fun hc =>
      hcond ⟨by rw [← hlenp]; exact hc.1, (all_ready_iff _).mp hc.2⟩
    rw [hsub]
    show submitResultState s aid grid now = _
      ∧ (submitResultState s aid grid now).status = _
      ∧ (submitResultState s aid grid now).startedAt = _
    rw [submitResultState, if_neg htrig]
    exact ⟨rfl, hstat, rfl⟩

/-- A forming lobby with fresh A and an already-ready B. -/
def formingFreshAReadyB : GState :=
  { baseState with players := [("A", newPlayer), ("B", playerReadyB)] }

/-- Witness for the amended C7: with a second ready player the submission
starts the game; with a single player it stores the grid and stays
forming. -/
theorem claim_C7_amended_start_trigger_witness :
    (submit_grid formingFreshAReadyB "A" gridA 0).1.status = Status.activeS
    ∧ (submit_grid formingFreshAReadyB "A" gridA 0).1.startedAt = some 0
    ∧ (submit_grid { baseState with players := [("A", newPlayer)] } "A" gridA 0).1
      = submitStore { baseState with players := [("A", newPlayer)] } "A" gridA
    ∧ (submit_grid { baseState with players := [("A", newPlayer)] } "A" gridA 0).1.status
      = Status.forming := by
  have h1 := (claim_C7_amended_start_trigger formingFreshAReadyB "A" gridA 0 rfl
    (by decide) rfl (by decide)).1 (by decide)
  have h2 := (claim_C7_amended_start_trigger
    { baseState with players := [("A", newPlayer)] } "A" gridA 0 rfl
    (by decide) rfl (by decide)).2 (by decide)
  exact ⟨h1.1, h1.2, h2.1, h2.2.1⟩

end Bingo
